import Mathlib

/-!
Verification of the emissions-table builder in src/app.py
(Jimmy-JayJay/carbon-emissions-map).

The program core is the function fetch_co2_data (src/app.py lines 59-97),
which issues one HTTP GET, parses the JSON response, normalizes the
observation records into a four-column table
(economy, Country, year, co2_per_capita), and returns an empty DataFrame
on any failure (a blanket try/except wraps the whole body), plus the
presentation-layer slice top_10 (line 169):
year_df.sort_values, descending on co2_per_capita, then .head 10.

The embedding below models the parsed JSON response as an inductive value
JVal, DataFrame cells as Option JVal (none is the NaN cell left by a
missing key), rows as a structure with the four projected columns, and
the fallible middle of the builder in the Except monad, caught at the
boundary exactly as the try/except does.  The transport layer (requests.get
and response.json) is abstracted as the already-parsed outcome
Except Unit JVal: an error value stands for a transport failure or a JSON
parse failure, both of which land in the same except clause.
-/

/-- A parsed JSON value, the result of response.json(). Objects come from
json.loads, whose duplicate keys collapse, so field lists carry unique keys
and lookup takes the first match. -/
inductive JVal where
  | jnull : JVal
  | jbool : Bool → JVal
  | jnum : Rat → JVal
  | jstr : String → JVal
  | jarr : List JVal → JVal
  | jobj : List (String × JVal) → JVal

/-- One raw observation record: the field list of a JSON object. -/
def Rec := List (String × JVal)

/-- Python truthiness of a JSON-derived value, as used by the
if not records check on line 77. -/
def pyFalsy : JVal → Bool
  | .jnull => true
  | .jbool b => !b
  | .jnum q => q == 0
  | .jstr s => s.isEmpty
  | .jarr xs => xs.isEmpty
  | .jobj fs => fs.isEmpty

/-- Key lookup in a record (Python dict access that may miss). -/
def jlookup (r : Rec) (k : String) : Option JVal :=
  (List.find? (fun p => p.1 == k) r).map Prod.snd

/-- Whether the DataFrame built from the records has column k: pandas takes
the union of the dict keys, so the column exists iff some record has the
key (line 82 checks membership in df.columns). -/
def hasCol (recs : List Rec) (k : String) : Bool :=
  recs.any fun r => r.any fun p => p.1 == k

/-- The column-presence guard of line 82: the builder proceeds only when
the country, value and countryiso3code columns all exist. -/
def colCheck (recs : List Rec) : Bool :=
  hasCol recs "country" && hasCol recs "value" && hasCol recs "countryiso3code"

/-- Digits of a numeral read most-significant first. -/
def digitsVal (cs : List Char) : Nat :=
  cs.foldl (fun n c => 10 * n + (c.toNat - 48)) 0

/-- Strip whitespace from both ends of a character list. -/
def stripWs (cs : List Char) : List Char :=
  ((cs.dropWhile Char.isWhitespace).reverse.dropWhile Char.isWhitespace).reverse

/-- Python int(s) on a string: optional surrounding whitespace, an optional
sign, then a nonempty run of decimal digits; anything else raises
ValueError. In particular a year-prefixed token such as YR1990 fails. -/
def parsePyInt (s : String) : Except Unit Int :=
  match stripWs s.data with
  | [] => .error ()
  | '-' :: rest =>
      if rest.isEmpty || !rest.all Char.isDigit then .error ()
      else .ok (-(digitsVal rest : Int))
  | '+' :: rest =>
      if rest.isEmpty || !rest.all Char.isDigit then .error ()
      else .ok ((digitsVal rest : Int))
  | cs =>
      if cs.all Char.isDigit then .ok ((digitsVal cs : Int)) else .error ()

/-- Truncation toward zero, what numpy float-to-int conversion does. -/
def ratTrunc (q : Rat) : Int := q.num.tdiv (q.den : Int)

/-- One cell of df.year.astype int (line 89): a missing cell (NaN) or a
None raises, a string goes through Python int parsing, a number truncates,
a bool maps to 0 or 1, and containers raise. -/
def pyIntCell : Option JVal → Except Unit Int
  | none => .error ()
  | some .jnull => .error ()
  | some (.jbool b) => .ok (if b then 1 else 0)
  | some (.jnum q) => .ok (ratTrunc q)
  | some (.jstr s) => parsePyInt s
  | some (.jarr _) => .error ()
  | some (.jobj _) => .error ()

/-- The lambda of line 85 applied to one country cell:
x.value if isinstance x dict else the empty string. A dict cell without a
value key raises KeyError (caught by the outer except); a missing cell is
NaN, not a dict, hence the empty string. -/
def countryCell (r : Rec) : Except Unit JVal :=
  match jlookup r "country" with
  | some (.jobj fs) =>
      match jlookup fs "value" with
      | some v => .ok v
      | none => .error ()
  | _ => .ok (.jstr "")

/-- pandas notna on a cell: false on the NaN of a missing key and on None. -/
def cellNotNa : Option JVal → Bool
  | none => false
  | some .jnull => false
  | some _ => true

/-- The economy filter of line 92: notna and not equal to the empty
string. A string cell passes when nonempty; a non-string non-null cell
compares unequal to the empty string and passes. -/
def econOk : Option JVal → Bool
  | none => false
  | some .jnull => false
  | some (.jstr s) => !s.isEmpty
  | some _ => true

/-- A row of the returned frame, projected to the four columns of line 94.
economy and co2_per_capita are raw cells (a cell can in general be NaN or
hold any JSON value); year is an Int because astype int either produced
integers for every row or raised. -/
structure Row where
  economy : Option JVal
  Country : JVal
  year : Int
  co2_per_capita : Option JVal

/-- The per-record part of lines 85-89: the Country column entry, the
coerced year, and the pass-through economy and value cells. The source
computes the Country column for all rows before coercing years; since both
steps are per-row and any failure anywhere lands in the same except
clause, per-row sequencing is observably the same. -/
def rowOf (r : Rec) : Except Unit Row :=
  match countryCell r with
  | .error e => .error e
  | .ok cn =>
      match pyIntCell (jlookup r "date") with
      | .error e => .error e
      | .ok y => .ok ⟨jlookup r "countryiso3code", cn, y, jlookup r "value"⟩

/-- Columnwise application of a fallible per-record step, raising as soon
as any record fails (the vectorized apply and astype of lines 85-89). -/
def colMapE (f : Rec → Except Unit Row) : List Rec → Except Unit (List Row)
  | [] => .ok []
  | r :: rs =>
      match f r with
      | .error e => .error e
      | .ok b =>
          match colMapE f rs with
          | .error e => .error e
          | .ok bs => .ok (b :: bs)

/-- Lines 80-94 once the records list is in hand: build the frame, bail
out to the empty frame if a required column is missing, derive the
columns, drop rows with a null value cell (dropna, line 91), then drop
rows with a missing or empty economy cell (line 92). -/
def buildFrame (recs : List Rec) : Except Unit (List Row) :=
  if colCheck recs then
    match colMapE rowOf recs with
    | .error e => .error e
    | .ok rows =>
        .ok ((rows.filter fun r => cellNotNa r.co2_per_capita).filter
              fun r => econOk r.economy)
  else .ok []

/-- data 1 as a list of records: pd.DataFrame over a list of dicts. A
sequence holding a non-object is modelled as the raising path: for data of
the source shape pandas either raises on it or yields a frame without the
required string columns, so the observable result is the empty frame
either way. -/
def asRecs : List JVal → Option (List Rec)
  | [] => some []
  | .jobj fs :: rest => (asRecs rest).map (fs :: ·)
  | _ => none

/-- The body of the try block, lines 70-94, on the parsed response (or the
transport/parse failure). A top-level value that is not a sequence makes
len data raise; a sequence shorter than two returns the empty frame
(line 73); a falsy data 1 returns the empty frame (line 77). -/
def build_body (resp : Except Unit JVal) : Except Unit (List Row) :=
  match resp with
  | .error e => .error e
  | .ok data =>
      match data with
      | .jarr (_meta :: records :: _rest) =>
          if pyFalsy records then .ok []
          else
            match records with
            | .jarr items =>
                match asRecs items with
                | some recs => buildFrame recs
                | none => .error ()
            | _ => .error ()
      | .jarr _ => .ok []
      | _ => .error ()

/-- fetch_co2_data, lines 59-97: the whole body sits in try/except and
every exception is converted to the empty frame. -/
def fetch_co2_data (resp : Except Unit JVal) : List Row :=
  match build_body resp with
  | .ok rows => rows
  | .error _ => []

/-- Sort key used by sort_values on the co2_per_capita column: the held
number. Rows of any frame the builder returns that survive dropna hold
JSON numbers whenever the source honours its numeric-value contract;
pandas raises on mixed non-numeric comparisons, which the key avoids by
sending them to zero (no claim relies on that corner). -/
def cellRat : Option JVal → Rat
  | some (.jnum q) => q
  | _ => 0

/-- Line 169: year_df.sort_values co2_per_capita descending, head 10.
The source sort is not stable on ties and neither is this statement used
as such; only descending order matters. -/
def top_10 (year_df : List Row) : List Row :=
  (year_df.mergeSort fun a b =>
    cellRat b.co2_per_capita ≤ cellRat a.co2_per_capita).take 10

/-- The source contract of section 6 of the spec for the value field of an
observation: a nullable numeric value (a missing key is the degenerate
null case). -/
def valueNumOrNull : Option JVal → Bool
  | none => true
  | some .jnull => true
  | some (.jnum _) => true
  | some _ => false

/-- First record of the section-8 scenario input: nested country pair,
period 2019, value given as the string 15.2, and no countryiso3code key. -/
def recUSA : Rec :=
  [("country", .jobj [("id", .jstr "USA"), ("value", .jstr "United States")]),
   ("date", .jstr "2019"), ("value", .jstr "15.2")]

/-- The full raw input of the section-8 scenario: a metadata object and
three observations (one good, one with an empty country id, one with a
null value), none carrying a countryiso3code key. -/
def c2raw : JVal :=
  .jarr [.jobj [],
    .jarr [.jobj recUSA,
      .jobj [("country", .jobj [("id", .jstr ""), ("value", .jstr "?")]),
             ("date", .jstr "2019"), ("value", .jstr "3.0")],
      .jobj [("country", .jobj [("id", .jstr "FRA"), ("value", .jstr "France")]),
             ("date", .jstr "2019"), ("value", .jnull)]]]

/-- A fully populated observation whose nested country id (XXX) differs
from its top-level countryiso3code (USA), to expose which of the two the
builder projects into the economy column. -/
def recFull : Rec :=
  [("country", .jobj [("id", .jstr "XXX"), ("value", .jstr "United States")]),
   ("countryiso3code", .jstr "USA"),
   ("date", .jstr "2019"), ("value", .jnum 15)]

/-- The row the builder produces from recFull. -/
def rowUSA : Row :=
  ⟨some (.jstr "USA"), .jstr "United States", 2019, some (.jnum 15)⟩

/-- Envelope holding the single observation recFull. -/
def c6raw : JVal := .jarr [.jobj [], .jarr [.jobj recFull]]

/-- Envelope holding the observation recFull twice, the duplicated-source
input for the deduplication claim. -/
def c9raw : JVal := .jarr [.jobj [], .jarr [.jobj recFull, .jobj recFull]]

/-- A well-formed observation whose period label carries the YR prefix. -/
def recYR : Rec :=
  [("country", .jobj [("id", .jstr "USA"), ("value", .jstr "United States")]),
   ("countryiso3code", .jstr "USA"),
   ("date", .jstr "YR1990"), ("value", .jnum 15)]

/-- Envelope holding the single observation recYR. -/
def c3raw : JVal := .jarr [.jobj [], .jarr [.jobj recYR]]

/-- An observation with a null value field. -/
def recNullVal : Rec :=
  [("country", .jobj [("id", .jstr "FRA"), ("value", .jstr "France")]),
   ("countryiso3code", .jstr "FRA"),
   ("date", .jstr "2019"), ("value", .jnull)]

/-- An observation with an empty countryiso3code. -/
def recEmptyCode : Rec :=
  [("country", .jobj [("id", .jstr ""), ("value", .jstr "?")]),
   ("countryiso3code", .jstr ""),
   ("date", .jstr "2019"), ("value", .jnum 3)]

/-- Envelope mixing one retainable observation with a null-value one and
an empty-code one. -/
def mixedraw : JVal :=
  .jarr [.jobj [], .jarr [.jobj recFull, .jobj recNullVal, .jobj recEmptyCode]]

/-- A well-formed observation whose period label is not coercible. -/
def recBadDate : Rec :=
  [("country", .jobj [("id", .jstr "AFE"), ("value", .jstr "Africa Eastern")]),
   ("countryiso3code", .jstr "AFE"),
   ("date", .jstr "n/a"), ("value", .jnum 2)]

/-- A standalone row used to exercise the top-10 slice. -/
def rowA : Row := ⟨some (.jstr "A"), .jstr "A", 2019, some (.jnum 5)⟩

/-- Parsing back a list of objects recovers the record list. -/
theorem asRecs_map_jobj (recs : List Rec) :
    asRecs (recs.map JVal.jobj) = some recs := by
  induction recs with
  | nil => rfl
  | cons a as ih => simp [asRecs, ih]

/-- A member of a successful columnwise application comes from some input
record. -/
theorem colMapE_mem {f : Rec → Except Unit Row} :
    ∀ {recs : List Rec} {rows : List Row} {r : Row},
      colMapE f recs = .ok rows → r ∈ rows → ∃ rec ∈ recs, f rec = .ok r := by
  intro recs
  induction recs with
  | nil =>
    intro rows r h hr
    injection h with h
    subst h
    exact absurd hr (List.not_mem_nil r)
  | cons a as ih =>
    intro rows r h hr
    rw [colMapE] at h
    cases hfa : f a with
    | error e => rw [hfa] at h; exact absurd h (by simp)
    | ok b =>
      rw [hfa] at h
      cases hca : colMapE f as with
      | error e => rw [hca] at h; exact absurd h (by simp)
      | ok bs =>
        rw [hca] at h
        injection h with h
        subst h
        rcases List.mem_cons.mp hr with rfl | hmem
        · exact ⟨a, List.mem_cons_self a as, hfa⟩
        · obtain ⟨rec, hm, hf⟩ := ih hca hmem
          exact ⟨rec, List.mem_cons_of_mem a hm, hf⟩

/-- If any record fails, the whole columnwise application fails: the
vectorized steps of lines 85-89 raise on the first bad cell. -/
theorem colMapE_error {f : Rec → Except Unit Row} :
    ∀ {recs : List Rec} {rec : Rec}, rec ∈ recs → f rec = .error () →
      colMapE f recs = .error () := by
  intro recs
  induction recs with
  | nil => intro rec h _; exact absurd h (List.not_mem_nil rec)
  | cons a as ih =>
    intro rec hmem hf
    rw [colMapE]
    rcases List.mem_cons.mp hmem with rfl | hmem2
    · rw [hf]
    · cases hfa : f a with
      | error e => cases e; rfl
      | ok b => rw [ih hmem2 hf]

/-- With at least one record present, the body reaches buildFrame. -/
theorem build_body_records (meta : JVal) (a : Rec) (as : List Rec)
    (rest : List JVal) :
    build_body (.ok (.jarr (meta :: .jarr ((a :: as).map JVal.jobj) :: rest)))
      = buildFrame (a :: as) := by
  show (match asRecs ((a :: as).map JVal.jobj) with
        | some recs => buildFrame recs
        | none => Except.error ()) = buildFrame (a :: as)
  rw [asRecs_map_jobj]

/-- Rows of a successful buildFrame pass the dropna filter of line 91 and
the economy filter of line 92. -/
theorem mem_buildFrame_filters {recs : List Rec} {rows : List Row} {r : Row}
    (h : buildFrame recs = .ok rows) (hr : r ∈ rows) :
    cellNotNa r.co2_per_capita = true ∧ econOk r.economy = true := by
  rw [buildFrame] at h
  split at h
  · split at h
    · exact absurd h (by simp)
    · injection h with h
      subst h
      have h1 := List.mem_filter.mp hr
      have h2 := List.mem_filter.mp h1.1
      exact ⟨h2.2, h1.2⟩
  · injection h with h
    subst h
    exact absurd hr (List.not_mem_nil r)

/-- Rows of a successful body pass both row filters, whatever the raw
response was. -/
theorem mem_build_body_filters {resp : Except Unit JVal} {rows : List Row}
    {r : Row} (h : build_body resp = .ok rows) (hr : r ∈ rows) :
    cellNotNa r.co2_per_capita = true ∧ econOk r.economy = true := by
  cases resp with
  | error e => exact absurd h (by simp [build_body])
  | ok data =>
    cases data with
    | jnull => exact absurd h (by simp [build_body])
    | jbool b => exact absurd h (by simp [build_body])
    | jnum q => exact absurd h (by simp [build_body])
    | jstr s => exact absurd h (by simp [build_body])
    | jobj fs => exact absurd h (by simp [build_body])
    | jarr xs =>
      match xs with
      | [] =>
        injection h with h
        subst h
        exact absurd hr (List.not_mem_nil r)
      | [meta] =>
        injection h with h
        subst h
        exact absurd hr (List.not_mem_nil r)
      | meta :: records :: rest =>
        cases records with
        | jnull =>
          rw [build_body] at h
          · split at h
            · injection h with h; subst h; exact absurd hr (List.not_mem_nil r)
            · exact absurd h (by simp)
          · exact fun items heq => JVal.noConfusion heq
        | jbool b =>
          rw [build_body] at h
          · split at h
            · injection h with h; subst h; exact absurd hr (List.not_mem_nil r)
            · exact absurd h (by simp)
          · exact fun items heq => JVal.noConfusion heq
        | jnum q =>
          rw [build_body] at h
          · split at h
            · injection h with h; subst h; exact absurd hr (List.not_mem_nil r)
            · exact absurd h (by simp)
          · exact fun items heq => JVal.noConfusion heq
        | jstr s =>
          rw [build_body] at h
          · split at h
            · injection h with h; subst h; exact absurd hr (List.not_mem_nil r)
            · exact absurd h (by simp)
          · exact fun items heq => JVal.noConfusion heq
        | jobj fs =>
          rw [build_body] at h
          · split at h
            · injection h with h; subst h; exact absurd hr (List.not_mem_nil r)
            · exact absurd h (by simp)
          · exact fun items heq => JVal.noConfusion heq
        | jarr items =>
          rw [build_body] at h
          split at h
          · injection h with h; subst h; exact absurd hr (List.not_mem_nil r)
          · cases ha : asRecs items with
            | none => rw [ha] at h; exact absurd h (by simp)
            | some recs => rw [ha] at h; exact mem_buildFrame_filters h hr

/-- Every row of any table the builder returns passed the dropna filter
and the economy filter. -/
theorem mem_fetch_filters (resp : Except Unit JVal) (r : Row)
    (hr : r ∈ fetch_co2_data resp) :
    cellNotNa r.co2_per_capita = true ∧ econOk r.economy = true := by
  rw [fetch_co2_data] at hr
  cases hb : build_body resp with
  | error e => rw [hb] at hr; exact absurd hr (List.not_mem_nil r)
  | ok rows => rw [hb] at hr; exact mem_build_body_filters hb hr

/-- Every row of a table built from a record sequence is the successful
per-record normalization of one of the records. -/
theorem mem_fetch_rowOf {meta : JVal} {recs : List Rec} {rest : List JVal}
    {r : Row}
    (hr : r ∈ fetch_co2_data (.ok (.jarr (meta :: .jarr (recs.map JVal.jobj) :: rest)))) :
    ∃ rec ∈ recs, rowOf rec = .ok r := by
  rw [fetch_co2_data] at hr
  cases hb : build_body (.ok (.jarr (meta :: .jarr (recs.map JVal.jobj) :: rest))) with
  | error e => rw [hb] at hr; exact absurd hr (List.not_mem_nil r)
  | ok rows =>
    rw [hb] at hr
    cases recs with
    | nil =>
      have h0 : build_body (.ok (.jarr (meta :: .jarr (List.map JVal.jobj []) :: rest)))
          = .ok [] := rfl
      rw [h0] at hb
      injection hb with hb
      subst hb
      exact absurd hr (List.not_mem_nil r)
    | cons a as =>
      rw [build_body_records] at hb
      rw [buildFrame] at hb
      split at hb
      · split at hb
        · exact absurd hb (by simp)
        · rename_i rows0 hcm
          injection hb with hb
          subst hb
          have h1 := List.mem_filter.mp hr
          have h2 := List.mem_filter.mp h1.1
          exact colMapE_mem hcm h2.1
      · injection hb with hb
        subst hb
        exact absurd hr (List.not_mem_nil r)

/-- A record whose period label cell cannot be coerced makes the
per-record step fail. -/
theorem rowOf_error_of_bad_date {rec : Rec}
    (hbad : pyIntCell (jlookup rec "date") = .error ()) :
    rowOf rec = .error () := by
  rw [rowOf]
  cases hcc : countryCell rec with
  | error e => cases e; rfl
  | ok cn => rw [hbad]

/-- One record with a non-coercible period label in the observation
sequence makes the builder return the empty frame, whatever else the
sequence holds: astype raises for the whole column and the except clause
converts the exception to the sentinel. -/
theorem fetch_empty_of_bad_date {meta : JVal} {recs : List Rec}
    {rest : List JVal} {rec : Rec} (hmem : rec ∈ recs)
    (hbad : pyIntCell (jlookup rec "date") = .error ()) :
    fetch_co2_data (.ok (.jarr (meta :: .jarr (recs.map JVal.jobj) :: rest))) = [] := by
  have hrow : rowOf rec = .error () := rowOf_error_of_bad_date hbad
  have hcol := colMapE_error hmem hrow
  cases recs with
  | nil => exact absurd hmem (List.not_mem_nil rec)
  | cons a as =>
    have hbf : fetch_co2_data (.ok (.jarr (meta :: .jarr ((a :: as).map JVal.jobj) :: rest)))
        = match buildFrame (a :: as) with
          | .ok rows => rows
          | .error _ => [] := by
      rw [fetch_co2_data, build_body_records]
    rw [hbf, buildFrame]
    by_cases hc : colCheck (a :: as)
    · rw [if_pos hc, hcol]
    · rw [if_neg hc]

/-- The fields of a successfully normalized row, read off from the record:
economy is the top-level countryiso3code cell, Country comes from the
nested country pair, year is the coerced period label, co2_per_capita is
the raw value cell. -/
theorem rowOf_ok_fields {rec : Rec} {r : Row} (h : rowOf rec = .ok r) :
    r.economy = jlookup rec "countryiso3code" ∧
    countryCell rec = .ok r.Country ∧
    pyIntCell (jlookup rec "date") = .ok r.year ∧
    r.co2_per_capita = jlookup rec "value" := by
  rw [rowOf] at h
  split at h
  · exact absurd h (by simp)
  · rename_i cn hcc
    split at h
    · exact absurd h (by simp)
    · rename_i y hpy
      injection h with h
      subst h
      exact ⟨rfl, hcc, hpy, rfl⟩

/-- A cell passing notna is neither missing nor null. -/
theorem cellNotNa_spec {c : Option JVal} (h : cellNotNa c = true) :
    c ≠ none ∧ c ≠ some .jnull := by
  cases c with
  | none => exact absurd h (by simp [cellNotNa])
  | some v =>
    cases v with
    | jnull => exact absurd h (by simp [cellNotNa])
    | jbool b => exact ⟨by simp, by simp⟩
    | jnum q => exact ⟨by simp, by simp⟩
    | jstr s => exact ⟨by simp, by simp⟩
    | jarr xs => exact ⟨by simp, by simp⟩
    | jobj fs => exact ⟨by simp, by simp⟩

/-- A cell passing the economy filter holds a value that is neither null
nor the empty string. -/
theorem econOk_spec {c : Option JVal} (h : econOk c = true) :
    ∃ v, c = some v ∧ v ≠ .jnull ∧ v ≠ .jstr "" := by
  cases c with
  | none => exact absurd h (by simp [econOk])
  | some v =>
    cases v with
    | jnull => exact absurd h (by simp [econOk])
    | jbool b => exact ⟨.jbool b, rfl, by simp, by simp⟩
    | jnum q => exact ⟨.jnum q, rfl, by simp, by simp⟩
    | jstr s =>
      refine ⟨.jstr s, rfl, by simp, ?_⟩
      intro heq
      injection heq with heq
      rw [econOk] at h
      simp only [heq] at h
      exact absurd h (by simp [String.isEmpty])
    | jarr xs => exact ⟨.jarr xs, rfl, by simp, by simp⟩
    | jobj fs => exact ⟨.jobj fs, rfl, by simp, by simp⟩

/-- Claim C1: for every response in the three failure classes (transport
exception during request or parse, top-level sequence shorter than two,
well-formed envelope with zero records or missing expected columns) the
builder returns the empty-table sentinel. The builder never raises past
its boundary: fetch_co2_data is a total function into tables. -/
theorem C1_failure_modes_yield_sentinel :
    (∀ e : Unit, fetch_co2_data (.error e) = []) ∧
    (∀ xs : List JVal, xs.length < 2 → fetch_co2_data (.ok (.jarr xs)) = []) ∧
    (∀ (meta : JVal) (rest : List JVal),
      fetch_co2_data (.ok (.jarr (meta :: .jarr [] :: rest))) = []) ∧
    (∀ (meta : JVal) (recs : List Rec) (rest : List JVal),
      colCheck recs = false →
      fetch_co2_data (.ok (.jarr (meta :: .jarr (recs.map JVal.jobj) :: rest))) = []) := by
  refine ⟨?_, ?_, ?_, ?_⟩
  · intro e; cases e; rfl
  · intro xs h
    match xs with
    | [] => rfl
    | [x] => rfl
    | a :: b :: t => simp at h; omega
  · intro meta rest; rfl
  · intro meta recs rest hc
    cases recs with
    | nil => rfl
    | cons a as =>
      have hbf : fetch_co2_data
          (.ok (.jarr (meta :: .jarr ((a :: as).map JVal.jobj) :: rest)))
          = match buildFrame (a :: as) with
            | .ok rows => rows
            | .error _ => [] := by
        rw [fetch_co2_data, build_body_records]
      rw [hbf, buildFrame, if_neg (by simp [hc])]

/-- Witness for C1: a one-element envelope and a records list without the
countryiso3code column both yield the sentinel. -/
theorem C1_failure_modes_yield_sentinel_witness :
    fetch_co2_data (.ok (.jarr [.jobj []])) = [] ∧
    fetch_co2_data (.ok (.jarr (.jobj [] :: .jarr ([recUSA].map JVal.jobj) :: []))) = [] :=
  ⟨C1_failure_modes_yield_sentinel.2.1 [.jobj []] (by decide),
   C1_failure_modes_yield_sentinel.2.2.2 (.jobj []) [recUSA] [] (by decide)⟩

/-- Claim C2 fails on the code: on the exact section-8 scenario input the
output table does not have one row. The records carry no countryiso3code
key, so the column guard of line 82 returns the empty frame. -/
theorem C2_counterexample : (fetch_co2_data (.ok c2raw)).length ≠ 1 := by
  have h : fetch_co2_data (.ok c2raw) = [] := rfl
  rw [h]
  simp

/-- Claim C2 as amended: on the section-8 scenario input the builder
returns the empty table, because no record carries the countryiso3code
field the builder requires (it does not read codes from the nested
country pair). -/
theorem C2_scenario_yields_empty_table : fetch_co2_data (.ok c2raw) = [] := rfl

/-- Claim C3 fails on the code: a well-formed observation with period
label YR1990 is not retained with year 1990 (no record is retained at
all). -/
theorem C3_counterexample :
    ¬ ∃ r ∈ fetch_co2_data (.ok c3raw), r.year = 1990 := by
  have h : fetch_co2_data (.ok c3raw) = [] := rfl
  rw [h]
  simp

/-- Claim C3 as amended: the builder does not strip non-numeric prefixes;
integer coercion of a YR1990 period label raises, and the builder returns
the empty sentinel for the entire response instead of retaining the
record. -/
theorem C3_yr_prefix_empties_table (meta : JVal) (recs : List Rec)
    (rest : List JVal) (rec : Rec) (hmem : rec ∈ recs)
    (hdate : jlookup rec "date" = some (.jstr "YR1990")) :
    fetch_co2_data (.ok (.jarr (meta :: .jarr (recs.map JVal.jobj) :: rest))) = [] := by
  apply fetch_empty_of_bad_date hmem
  rw [hdate]
  rfl

/-- Witness for the amended C3 at the concrete YR1990 observation. -/
theorem C3_yr_prefix_empties_table_witness :
    fetch_co2_data (.ok (.jarr (.jobj [] :: .jarr ([recYR].map JVal.jobj) :: []))) = [] :=
  C3_yr_prefix_empties_table (.jobj []) [recYR] [] recYR
    (List.mem_singleton.mpr rfl) rfl

/-- Claim C4: every row of any table the builder returns has a non-null
value cell; records with a null (or missing) value field are absent. -/
theorem C4_no_null_values (resp : Except Unit JVal) (r : Row)
    (hr : r ∈ fetch_co2_data resp) :
    r.co2_per_capita ≠ none ∧ r.co2_per_capita ≠ some .jnull :=
  cellNotNa_spec (mem_fetch_filters resp r hr).1

/-- Witness for C4: the retained row of the mixed input has a non-null
value cell. -/
theorem C4_no_null_values_witness :
    rowUSA.co2_per_capita ≠ none ∧ rowUSA.co2_per_capita ≠ some .jnull := by
  have h : fetch_co2_data (.ok mixedraw) = [rowUSA] := rfl
  exact C4_no_null_values (.ok mixedraw) rowUSA
    (by rw [h]; exact List.mem_singleton.mpr rfl)

/-- Claim C5: every row of any table the builder returns has a present,
non-null, non-empty country-code cell; records with a null or empty code
are absent. -/
theorem C5_nonempty_country_code (resp : Except Unit JVal) (r : Row)
    (hr : r ∈ fetch_co2_data resp) :
    ∃ v, r.economy = some v ∧ v ≠ .jnull ∧ v ≠ .jstr "" :=
  econOk_spec (mem_fetch_filters resp r hr).2

/-- Witness for C5 at the mixed input. -/
theorem C5_nonempty_country_code_witness :
    ∃ v, rowUSA.economy = some v ∧ v ≠ .jnull ∧ v ≠ .jstr "" := by
  have h : fetch_co2_data (.ok mixedraw) = [rowUSA] := rfl
  exact C5_nonempty_country_code (.ok mixedraw) rowUSA
    (by rw [h]; exact List.mem_singleton.mpr rfl)

/-- Claim C6 fails on the code: the country code the builder outputs is
not derived from the nested country pair. For an observation whose nested
id is XXX but whose top-level countryiso3code is USA, the economy column
holds USA. -/
theorem C6_counterexample :
    (fetch_co2_data (.ok c6raw)).map Row.economy = [some (.jstr "USA")] ∧
    (some (JVal.jstr "USA") : Option JVal) ≠ some (.jstr "XXX") := by
  refine ⟨rfl, ?_⟩
  intro h
  injection h with h
  injection h with h
  exact absurd h (by decide)

/-- Claim C6 as amended: only country_name is derived by flattening the
nested country pair (its value field); country_code is taken from the
record's top-level countryiso3code field. -/
theorem C6_code_from_countryiso3code (rec : Rec) (r : Row)
    (hr : r ∈ fetch_co2_data
      (.ok (.jarr (.jobj [] :: .jarr ([rec].map JVal.jobj) :: [])))) :
    r.economy = jlookup rec "countryiso3code" ∧
    countryCell rec = .ok r.Country := by
  obtain ⟨rec2, hmem, hrow⟩ := mem_fetch_rowOf hr
  rw [List.mem_singleton] at hmem
  subst hmem
  obtain ⟨h1, h2, _, _⟩ := rowOf_ok_fields hrow
  exact ⟨h1, h2⟩

/-- Witness for the amended C6 at the mismatching observation. -/
theorem C6_code_from_countryiso3code_witness :
    rowUSA.economy = jlookup recFull "countryiso3code" ∧
    countryCell recFull = .ok rowUSA.Country := by
  have h : fetch_co2_data
      (.ok (.jarr (.jobj [] :: .jarr ([recFull].map JVal.jobj) :: []))) = [rowUSA] := rfl
  exact C6_code_from_countryiso3code recFull rowUSA
    (by rw [h]; exact List.mem_singleton.mpr rfl)

/-- Claim C7: the top-10 slice returns at most ten records, sorted in
descending order of value, and every returned record belongs to the input
slice. -/
theorem C7_top_10_spec (year_df : List Row) :
    (top_10 year_df).length ≤ 10 ∧
    List.Pairwise (fun a b =>
      cellRat b.co2_per_capita ≤ cellRat a.co2_per_capita) (top_10 year_df) ∧
    ∀ r ∈ top_10 year_df, r ∈ year_df := by
  rw [top_10]
  refine ⟨List.length_take_le 10 _, ?_, ?_⟩
  · have hs := @List.sorted_mergeSort Row
      (fun a b : Row => decide (cellRat b.co2_per_capita ≤ cellRat a.co2_per_capita))
      (fun a b c h1 h2 => by
        simp only [decide_eq_true_eq] at h1 h2 ⊢
        exact le_trans h2 h1)
      (fun a b => by
        simp only [Bool.or_eq_true, decide_eq_true_eq]
        exact le_total _ _)
      year_df
    have hs2 := hs.imp (fun h => of_decide_eq_true h)
    exact List.Pairwise.sublist (List.take_sublist 10 _) hs2
  · intro r hr
    exact List.mem_mergeSort.mp (List.mem_of_mem_take hr)

/-- Witness for C7: the member of a singleton top-10 slice belongs to the
slice. -/
theorem C7_top_10_spec_witness : rowA ∈ [rowA] :=
  (C7_top_10_spec [rowA]).2.2 rowA (by rw [top_10]; simp)

/-- Claim C8: when the source honours its section-6 contract (every value
field a number or null), every retained row holds a finite number (a
rational; JSON literals denote finite numbers) in its value cell, and its
year is the successful integer coercion of some record's period label. -/
theorem C8_retained_rows_typed (meta : JVal) (recs : List Rec)
    (rest : List JVal) (r : Row)
    (hcontract : ∀ rec ∈ recs, valueNumOrNull (jlookup rec "value") = true)
    (hr : r ∈ fetch_co2_data (.ok (.jarr (meta :: .jarr (recs.map JVal.jobj) :: rest)))) :
    (∃ q : Rat, r.co2_per_capita = some (.jnum q)) ∧
    ∃ rec ∈ recs, pyIntCell (jlookup rec "date") = .ok r.year := by
  obtain ⟨rec, hmem, hrow⟩ := mem_fetch_rowOf hr
  obtain ⟨_, _, hpy, hval⟩ := rowOf_ok_fields hrow
  have hna := (mem_fetch_filters _ r hr).1
  refine ⟨?_, rec, hmem, hpy⟩
  have hvc := hcontract rec hmem
  rw [← hval] at hvc
  cases hcell : r.co2_per_capita with
  | none => rw [hcell] at hna; exact absurd hna (by simp [cellNotNa])
  | some v =>
    cases v with
    | jnull => rw [hcell] at hna; exact absurd hna (by simp [cellNotNa])
    | jnum q => exact ⟨q, rfl⟩
    | jbool b => rw [hcell] at hvc; exact absurd hvc (by simp [valueNumOrNull])
    | jstr s => rw [hcell] at hvc; exact absurd hvc (by simp [valueNumOrNull])
    | jarr xs => rw [hcell] at hvc; exact absurd hvc (by simp [valueNumOrNull])
    | jobj fs => rw [hcell] at hvc; exact absurd hvc (by simp [valueNumOrNull])

/-- Witness for C8 at a contract-honouring single-record response. -/
theorem C8_retained_rows_typed_witness :
    (∃ q : Rat, rowUSA.co2_per_capita = some (.jnum q)) ∧
    ∃ rec ∈ [recFull], pyIntCell (jlookup rec "date") = .ok rowUSA.year := by
  have h : fetch_co2_data
      (.ok (.jarr (.jobj [] :: .jarr ([recFull].map JVal.jobj) :: []))) = [rowUSA] := rfl
  exact C8_retained_rows_typed (.jobj []) [recFull] [] rowUSA
    (by intro rec hmem; rw [List.mem_singleton] at hmem; subst hmem; rfl)
    (by rw [h]; exact List.mem_singleton.mpr rfl)

/-- Claim C9 fails on the code: the builder does not deduplicate. The
envelope that repeats one observation twice yields a table with two
identical rows. -/
theorem C9_counterexample : ¬ (fetch_co2_data (.ok c9raw)).Nodup := by
  have h : fetch_co2_data (.ok c9raw) = [rowUSA, rowUSA] := rfl
  rw [h]
  intro hn
  exact (List.nodup_cons.mp hn).1 (List.mem_singleton.mpr rfl)

/-- Claim C9 as amended: the builder keeps duplicates; a source
observation that is normalized and retained appears in the output once
per occurrence, so a duplicated observation yields two identical rows. -/
theorem C9_duplicates_retained (meta : JVal) (rest : List JVal) (rec : Rec)
    (r : Row) (hrow : rowOf rec = .ok r) (hc : colCheck [rec, rec] = true)
    (hna : cellNotNa r.co2_per_capita = true) (hec : econOk r.economy = true) :
    fetch_co2_data (.ok (.jarr (meta :: .jarr ([rec, rec].map JVal.jobj) :: rest)))
      = [r, r] := by
  have hcm : colMapE rowOf [rec, rec] = .ok [r, r] := by
    simp only [colMapE, hrow]
  have hbb : build_body (.ok (.jarr (meta :: .jarr ([rec, rec].map JVal.jobj) :: rest)))
      = .ok [r, r] := by
    rw [build_body_records, buildFrame, if_pos hc, hcm]
    simp [List.filter_cons, hna, hec]
  rw [fetch_co2_data, hbb]

/-- Witness for the amended C9 at the duplicated observation. -/
theorem C9_duplicates_retained_witness :
    fetch_co2_data
      (.ok (.jarr (.jobj [] :: .jarr ([recFull, recFull].map JVal.jobj) :: [])))
      = [rowUSA, rowUSA] :=
  C9_duplicates_retained (.jobj []) [] recFull rowUSA rfl rfl rfl rfl

/-- Claim C10: one observation whose period label cannot be coerced to an
integer makes the builder return the empty sentinel for the entire
response, discarding every other valid record. -/
theorem C10_one_bad_label_empties_table (meta : JVal) (recs : List Rec)
    (rest : List JVal) (rec : Rec) (hmem : rec ∈ recs)
    (hbad : pyIntCell (jlookup rec "date") = .error ()) :
    fetch_co2_data (.ok (.jarr (meta :: .jarr (recs.map JVal.jobj) :: rest))) = [] :=
  fetch_empty_of_bad_date hmem hbad

/-- Witness for C10: a valid observation next to one with an uncoercible
period label still yields the empty table. -/
theorem C10_one_bad_label_empties_table_witness :
    fetch_co2_data
      (.ok (.jarr (.jobj [] :: .jarr ([recFull, recBadDate].map JVal.jobj) :: []))) = [] :=
  C10_one_bad_label_empties_table (.jobj []) [recFull, recBadDate] [] recBadDate
    (List.mem_cons_of_mem recFull (List.mem_singleton.mpr rfl)) rfl
